import Mathlib

/-!
Shallow embedding of the `orao-solana-vrf` client crate (`src/rust/src/lib.rs`).

The crate's root file wires five private modules (`env`, `error`,
`instructions`, `state`, `verify`); only the root file is present in the
repository snapshot, so the definitions coming from the missing modules are
modelled from the specification and marked as such in their doc comments.
External Solana SDK facilities (RPC transport, `Pubkey::find_program_address`,
ed25519 verification) are abstracted as explicit function parameters, making
every operation a pure function of its inputs.
-/

namespace OraoVrf

/-- A Solana public key, abstracted as its 32 raw bytes. -/
abbrev Pubkey := List Nat

/-- Modelled from the spec: the closed error union of the missing `error`
module. The root file constructs `Error::NotFound` and
`Error::RandomnessVerifyError`; the spec (§7) also names transport and
decode kinds. -/
inductive Error where
  | SolanaClientError (msg : String)
  | NotFound (msg : String)
  | DecodeError (msg : String)
  | RandomnessVerifyError (msg : String)
deriving DecidableEq, Repr

/-- Status tag of a randomness account: `{Pending, Fulfilled}` (spec §3). -/
inductive RandomnessStatus where
  | Pending
  | Fulfilled
deriving DecidableEq, Repr

/-- The `Randomness` record (missing `state` module; field `randomness` is the
optional 64-byte ed25519 signature, used by the root file as
`randomness.randomness.clone().unwrap_or(vec![0; 64])`). -/
structure Randomness where
  seed : List Nat
  randomness : Option (List Nat)
  status : RandomnessStatus
deriving DecidableEq, Repr

/-- The function `derive_randomness_address` (lib.rs:255-263): forwards
`(prefix bytes, seed)` to the SDK's `Pubkey::find_program_address` and
returns the address component. The SDK derivation is abstracted as the
function parameter `fpa`. -/
def derive_randomness_address (fpa : List (List Nat) → Pubkey → Pubkey)
    (seed : List Nat) (prefix_seed : List Nat) (program : Pubkey) : Pubkey :=
  fpa [prefix_seed, seed] program

/-- Environment of one `request_randomness` call: the outcomes of the RPC
interactions it may perform, keyed the way the code consumes them.
`Tx` is abstracted as `Nat`. -/
structure RequestEnv where
  getRandomnessAccount : Except Error Randomness
  buildTx : Except Error Nat
  sendAndConfirm : Nat → Except Error Nat

/-- The method `VrfRequestor::request_randomness` (lib.rs:119-135): if the existence
check `get_randomness_account` errors, build and submit the request
transaction (propagating build/send errors); otherwise do nothing.
Returns the result paired with the number of `send_and_confirm_transaction`
calls performed. -/
def request_randomness (env : RequestEnv) : Except Error Unit × Nat :=
  match env.getRandomnessAccount with
  | .ok _ => (.ok (), 0)
  | .error _ =>
    match env.buildTx with
    | .error e => (.error e, 0)
    | .ok tx =>
      match env.sendAndConfirm tx with
      | .error e => (.error e, 1)
      | .ok _ => (.ok (), 1)

/-- Transaction meta: only the outer success/failure status matters to the
scan (`meta.status.is_err()`, lib.rs:229-235). -/
structure TxMeta where
  statusIsErr : Bool
deriving DecidableEq, Repr

/-- One parsed instruction of a fetched transaction. Modelled from the spec:
the missing `verify` module consumes the JSON-parsed encoding, in which each
instruction carries the invoked program id (a string) and, for the native
ed25519 signature-verification instruction, operand data encoding a public
key and a message/signature pair; the operands are kept parsed. -/
structure ParsedInstr where
  programId : String
  pubkey : List Nat
deriving DecidableEq, Repr

/-- A fetched transaction record: outer status meta plus the ordered
instruction list (spec §3, "Transaction record"). -/
structure TransactionRecord where
  meta : Option TxMeta
  instructions : List ParsedInstr
deriving DecidableEq, Repr

/-- Program id string of the native ed25519 signature-verification program,
as compared against by the missing `verify` module. -/
def edSigVerifyProgramId : String := "Ed25519SigVerify111111111111111111111111111"

/-- Modelled from the spec: `verify::is_vrf_fulfilled_transaction` (missing
module). A qualifying VRF fulfillment transaction must contain an
instruction addressed to the VRF program plus a companion
signature-verification instruction in the same transaction (spec §4.4
step 4). -/
def is_vrf_fulfilled_transaction (tx : TransactionRecord)
    (vrfProgram : String) : Bool :=
  tx.instructions.any (fun i => i.programId = vrfProgram) &&
    tx.instructions.any (fun i => i.programId = edSigVerifyProgramId)

/-- First companion signature-verification instruction of a transaction. -/
def findEdSigVerifyInstr (tx : TransactionRecord) : Option ParsedInstr :=
  tx.instructions.find? (fun i => i.programId = edSigVerifyProgramId)

namespace Verify

/-- Modelled from the spec: `verify::verify_randomness_offchain` (missing
module). Extracts the public key operand from the companion
signature-verification instruction and re-runs ed25519 verification with
message = seed bytes and signature = the 64-byte value from the
`Randomness` record; fails with `RandomnessVerifyError` when the check
fails or the companion instruction is absent (spec §4.5). The ed25519
primitive is abstracted as the parameter `ed25519Verify`. -/
def verify_randomness_offchain
    (ed25519Verify : List Nat → List Nat → List Nat → Bool)
    (tx : TransactionRecord) (seed : List Nat) (signature : List Nat) :
    Except Error Unit :=
  match findEdSigVerifyInstr tx with
  | none =>
    .error (.RandomnessVerifyError "EdSigVerify instruction not found")
  | some instr =>
    if ed25519Verify seed signature instr.pubkey then .ok ()
    else .error (.RandomnessVerifyError "Randomness verification failed")

end Verify

/-- Environment of one `verify_randomness_offchain` call: how signature
strings parse (`Signature::from_str`), what `get_transaction` returns for
each parsed signature, and the ed25519 primitive. -/
structure ScanEnv where
  parseSignature : String → Option Nat
  getTransaction : Nat → Except Error TransactionRecord
  ed25519Verify : List Nat → List Nat → List Nat → Bool

/-- Outcome of the scan, with a dedicated constructor for a Rust panic
(the `.unwrap()` on `Signature::from_str`, lib.rs:223). -/
inductive ScanOutcome where
  | ok
  | err (e : Error)
  | panic (msg : String)
deriving DecidableEq, Repr

/-- The `for signature_str in signatures.iter()` loop of
`VrfRequestor::verify_randomness_offchain` (lib.rs:222-251): parse the
signature (panicking on failure), fetch the transaction (propagating RPC
errors), skip it when meta is absent or its status is an error, and on the
first transaction qualifying as a VRF fulfillment run the cryptographic
check and return its outcome; when the list is exhausted, fail with
`RandomnessVerifyError`. -/
def scanLoop (env : ScanEnv) (vrfProgram : String)
    (seed : List Nat) (randomnessSignature : List Nat) :
    List String → ScanOutcome
  | [] =>
    .err (.RandomnessVerifyError
      "Unable to find transaction with EdSigVerify instruction")
  | s :: rest =>
    match env.parseSignature s with
    | none => .panic "called Result::unwrap on an Err value"
    | some sg =>
      match env.getTransaction sg with
      | .error e => .err e
      | .ok tx =>
        if (tx.meta.map (fun m => m.statusIsErr)).getD true then
          scanLoop env vrfProgram seed randomnessSignature rest
        else if is_vrf_fulfilled_transaction tx vrfProgram then
          match Verify.verify_randomness_offchain env.ed25519Verify tx seed
              randomnessSignature with
          | .error e => .err e
          | .ok _ => .ok
        else
          scanLoop env vrfProgram seed randomnessSignature rest

/-- The method `VrfRequestor::verify_randomness_offchain` (lib.rs:194-252): default the
record's missing signature to 64 zero bytes, fail with `NotFound` when the
history provider returned zero signatures, otherwise scan the signature
list. -/
def VrfRequestor.verify_randomness_offchain (env : ScanEnv)
    (vrfProgram : String) (seed : List Nat) (randomness : Randomness)
    (signatures : List String) : ScanOutcome :=
  let randomnessSignature := randomness.randomness.getD (List.replicate 64 0)
  if signatures.length = 0 then
    .err (.NotFound "No transactions found for seed")
  else
    scanLoop env vrfProgram seed randomnessSignature signatures

/-- Modelled from the spec: the fixed 8-byte account discriminator expected
by the missing `state` module's decoder; the concrete value is opaque to the
spec, so an arbitrary fixed constant stands for it. -/
def randomnessDiscriminator : List Nat := [15, 23, 11, 180, 92, 201, 64, 88]

/-- Modelled from the spec: `Randomness::decode_from_bytes` (missing `state`
module). Offset-based decoding of the fixed account layout — 8-byte
discriminator, 32-byte seed, 1-byte option tag plus 64 signature bytes,
1-byte status tag (spec §4.2, §6); fails with `DecodeError` on a short
slice or a mismatched discriminator/tag, and is total by construction. -/
def Randomness.decode_from_bytes (bytes : List Nat) : Except Error Randomness :=
  if bytes.length < 106 then
    .error (.DecodeError "account data too short")
  else if bytes.take 8 ≠ randomnessDiscriminator then
    .error (.DecodeError "unexpected account discriminator")
  else
    let seed := (bytes.drop 8).take 32
    let sigBytes := (bytes.drop 41).take 64
    match bytes.getD 40 0, bytes.getD 105 0 with
    | 0, 0 => .ok (Randomness.mk seed none .Pending)
    | 0, 1 => .ok (Randomness.mk seed none .Fulfilled)
    | 1, 0 => .ok (Randomness.mk seed (some sigBytes) .Pending)
    | 1, 1 => .ok (Randomness.mk seed (some sigBytes) .Fulfilled)
    | _, _ => .error (.DecodeError "unexpected tag byte")

/-- A signature string the scan loop steps over without selecting it: it
parses, its transaction is fetched, and the transaction either has a
missing/failed outer status or does not qualify as a VRF fulfillment. -/
def skippable (env : ScanEnv) (vrfProgram : String) (s : String) : Prop :=
  ∃ sg tx, env.parseSignature s = some sg ∧
    env.getTransaction sg = .ok tx ∧
    ((tx.meta.map (fun m => m.statusIsErr)).getD true = true ∨
      is_vrf_fulfilled_transaction tx vrfProgram = false)

/-- A signature string whose transaction the scan loop selects: it parses,
its transaction is fetched, its outer status is a success, and it qualifies
as a VRF fulfillment transaction. -/
def qualifies (env : ScanEnv) (vrfProgram : String) (s : String)
    (tx : TransactionRecord) : Prop :=
  ∃ sg, env.parseSignature s = some sg ∧
    env.getTransaction sg = .ok tx ∧
    (tx.meta.map (fun m => m.statusIsErr)).getD true = false ∧
    is_vrf_fulfilled_transaction tx vrfProgram = true

/-- Scanning a list of only skippable signatures ends in the exhaustion
error. -/
theorem scanLoop_all_skippable (env : ScanEnv) (p : String)
    (seed sig : List Nat) (l : List String)
    (hall : ∀ s ∈ l, skippable env p s) :
    scanLoop env p seed sig l =
      .err (.RandomnessVerifyError
        "Unable to find transaction with EdSigVerify instruction") := by
  induction l with
  | nil => rfl
  | cons a l ih =>
    obtain ⟨sg, tx, hp, ht, hcase⟩ := hall a (List.mem_cons_self a l)
    have ihl := ih (fun s hs => hall s (List.mem_cons_of_mem a hs))
    rcases hcase with hm | hf
    · simp [scanLoop, hp, ht, hm, ihl]
    · by_cases hm : (tx.meta.map (fun m => m.statusIsErr)).getD true = true
      · simp [scanLoop, hp, ht, hm, ihl]
      · simp [scanLoop, hp, ht, hm, hf, ihl]

/-! ## Claim theorems -/

/-- C2: whenever the existence check `get_randomness_account` succeeds,
`request_randomness` performs zero `send_and_confirm_transaction` calls and
returns `Ok` — a repeated request for the same seed is a no-op, not an
error. -/
theorem request_randomness_idempotent (env : RequestEnv) (r : Randomness)
    (h : env.getRandomnessAccount = .ok r) :
    request_randomness env = (.ok (), 0) := by
  unfold request_randomness
  rw [h]

/-- Concrete witness for `request_randomness_idempotent`. -/
def reqEnvExisting : RequestEnv :=
  RequestEnv.mk (.ok (Randomness.mk (List.replicate 32 0) none .Fulfilled))
    (.ok 7) (fun _ => .ok 9)

theorem request_randomness_idempotent_witness :
    reqEnvExisting.getRandomnessAccount =
      .ok (Randomness.mk (List.replicate 32 0) none .Fulfilled) ∧
    request_randomness reqEnvExisting = (.ok (), 0) :=
  ⟨rfl, request_randomness_idempotent reqEnvExisting
    (Randomness.mk (List.replicate 32 0) none .Fulfilled) rfl⟩

/-- C9: when the existence check returns any error at all — `e` below is
arbitrary, so it covers transport and decode failures alike —
`request_randomness` proceeds to build and submit the request transaction,
and the check's error never reaches the caller: with build and send
succeeding the result is `Ok` with exactly one submission, for every error
value alike. -/
theorem request_randomness_check_error_submits (env : RequestEnv)
    (e : Error) (tx sg : Nat)
    (h : env.getRandomnessAccount = .error e)
    (hb : env.buildTx = .ok tx)
    (hs : env.sendAndConfirm tx = .ok sg) :
    request_randomness env = (.ok (), 1) ∧
    ∀ e2 : Error,
      request_randomness
          (RequestEnv.mk (.error e2) env.buildTx env.sendAndConfirm) =
        (.ok (), 1) := by
  constructor
  · simp [request_randomness, h, hb, hs]
  · intro e2
    simp [request_randomness, hb, hs]

/-- Concrete witness for `request_randomness_check_error_submits`: the check
fails with a transport error, yet the request is submitted. -/
def reqEnvAbsent : RequestEnv :=
  RequestEnv.mk (.error (.SolanaClientError "connection refused"))
    (.ok 7) (fun _ => .ok 9)

theorem request_randomness_check_error_submits_witness :
    reqEnvAbsent.getRandomnessAccount =
      .error (.SolanaClientError "connection refused") ∧
    request_randomness reqEnvAbsent = (.ok (), 1) :=
  ⟨rfl, (request_randomness_check_error_submits reqEnvAbsent
    (.SolanaClientError "connection refused") 7 9 rfl rfl rfl).1⟩

/-- C5: randomness-address derivation is a pure function of
`(seed, prefix, program id)`: with the same (abstracted) SDK derivation
function, identical inputs give identical addresses, there being no other
state for the result to depend on. -/
theorem derive_randomness_address_deterministic
    (fpa : List (List Nat) → Pubkey → Pubkey)
    (s1 s2 p1 p2 : List Nat) (g1 g2 : Pubkey)
    (hs : s1 = s2) (hp : p1 = p2) (hg : g1 = g2) :
    derive_randomness_address fpa s1 p1 g1 =
      derive_randomness_address fpa s2 p2 g2 := by
  rw [hs, hp, hg]

/-- Concrete derivation function for the determinism witness. -/
def fpaConcrete : List (List Nat) → Pubkey → Pubkey :=
  fun seeds program => seeds.foldl (fun a b => a ++ b) [] ++ program

theorem derive_randomness_address_deterministic_witness :
    ([3, 1] : List Nat) = [3, 1] ∧
    derive_randomness_address fpaConcrete [3, 1] [5] [8] =
      derive_randomness_address fpaConcrete [3, 1] [5] [8] :=
  ⟨rfl, derive_randomness_address_deterministic fpaConcrete
    [3, 1] [3, 1] [5] [5] [8] [8] rfl rfl rfl⟩

/-- C4: when the `Randomness` record's signature field is `None`, the
offchain verifier substitutes 64 zero bytes and proceeds with the history
scan — it does not fail fast before scanning. -/
theorem missing_signature_defaults_to_zeros (env : ScanEnv) (p : String)
    (seed : List Nat) (r : Randomness) (sigs : List String)
    (hr : r.randomness = none) (hs : sigs ≠ []) :
    VrfRequestor.verify_randomness_offchain env p seed r sigs =
      scanLoop env p seed (List.replicate 64 0) sigs := by
  unfold VrfRequestor.verify_randomness_offchain
  rw [hr]
  simp [List.length_eq_zero, hs]

/-- Concrete environment for the missing-signature witness: the single
transaction in history is fetched but has no qualifying instructions. -/
def envPending : ScanEnv :=
  ScanEnv.mk (fun _ => some 0)
    (fun _ => .ok (TransactionRecord.mk (some (TxMeta.mk false)) []))
    (fun _ _ _ => false)

theorem missing_signature_defaults_to_zeros_witness :
    (Randomness.mk [] none .Pending).randomness = none ∧
    VrfRequestor.verify_randomness_offchain envPending "vrf" []
        (Randomness.mk [] none .Pending) ["sig1"] =
      scanLoop envPending "vrf" [] (List.replicate 64 0) ["sig1"] :=
  ⟨rfl, missing_signature_defaults_to_zeros envPending "vrf" []
    (Randomness.mk [] none .Pending) ["sig1"] rfl (by simp)⟩

/-- Environment refuting C1 as stated: the single signature parses, its
transaction is fetched with a successful status, but it carries no
instructions, so it never qualifies and the scan exhausts the list. -/
def envExhausted : ScanEnv :=
  ScanEnv.mk (fun _ => some 0)
    (fun _ => .ok (TransactionRecord.mk (some (TxMeta.mk false)) []))
    (fun _ _ _ => false)

/-- C1 counterexample: with one signature in history and no qualifying
transaction, the scan exhausts the list and fails with
`RandomnessVerifyError`, not with the `NotFound` kind the claim asserts for
this case. -/
theorem scan_exhausted_error_kind_cex :
    VrfRequestor.verify_randomness_offchain envExhausted "vrf" []
        (Randomness.mk [] none .Pending) ["sigA"] =
      .err (.RandomnessVerifyError
        "Unable to find transaction with EdSigVerify instruction") ∧
    ∀ msg : String,
      VrfRequestor.verify_randomness_offchain envExhausted "vrf" []
          (Randomness.mk [] none .Pending) ["sigA"] ≠
        .err (.NotFound msg) := by
  constructor
  · rfl
  · intro msg h
    simp [VrfRequestor.verify_randomness_offchain, scanLoop, envExhausted,
      is_vrf_fulfilled_transaction] at h

/-- C1 amended: the two unsuccessful scan outcomes differ in error kind, not
only in message — zero signatures for the derived address gives `NotFound`,
while an exhausted signature list with no qualifying transaction gives
`RandomnessVerifyError`. -/
theorem scan_failure_error_kinds (env : ScanEnv) (p : String)
    (seed : List Nat) (r : Randomness) (sigs : List String)
    (hall : ∀ s ∈ sigs, skippable env p s) (hne : sigs ≠ []) :
    VrfRequestor.verify_randomness_offchain env p seed r [] =
      .err (.NotFound "No transactions found for seed") ∧
    VrfRequestor.verify_randomness_offchain env p seed r sigs =
      .err (.RandomnessVerifyError
        "Unable to find transaction with EdSigVerify instruction") := by
  constructor
  · rfl
  · unfold VrfRequestor.verify_randomness_offchain
    simp only [List.length_eq_zero, hne, if_false]
    exact scanLoop_all_skippable env p seed _ sigs hall

theorem scan_failure_error_kinds_witness :
    (∀ s ∈ ["sigA"], skippable envExhausted "vrf" s) ∧
    VrfRequestor.verify_randomness_offchain envExhausted "vrf" []
        (Randomness.mk [] none .Pending) [] =
      .err (.NotFound "No transactions found for seed") ∧
    VrfRequestor.verify_randomness_offchain envExhausted "vrf" []
        (Randomness.mk [] none .Pending) ["sigA"] =
      .err (.RandomnessVerifyError
        "Unable to find transaction with EdSigVerify instruction") := by
  have hall : ∀ s ∈ ["sigA"], skippable envExhausted "vrf" s := by
    intro s hs
    exact ⟨0, TransactionRecord.mk (some (TxMeta.mk false)) [], rfl, rfl,
      Or.inr rfl⟩
  exact ⟨hall,
    scan_failure_error_kinds envExhausted "vrf" []
      (Randomness.mk [] none .Pending) ["sigA"] hall (by simp)⟩

/-- C3: a transaction whose outer status is a failure is skipped by the
scan: the scan of any history containing it gives exactly the result of the
scan with that entry removed, so it can never be the transaction selected
for verification — even if its instruction list would qualify. -/
theorem failed_status_tx_skipped (env : ScanEnv) (p : String)
    (seed sig : List Nat) (s : String) (sg : Nat)
    (tx : TransactionRecord) (m : TxMeta) (l1 l2 : List String)
    (hp : env.parseSignature s = some sg)
    (ht : env.getTransaction sg = .ok tx)
    (hm : tx.meta = some m) (he : m.statusIsErr = true) :
    scanLoop env p seed sig (l1 ++ s :: l2) =
      scanLoop env p seed sig (l1 ++ l2) := by
  have hskip : (tx.meta.map (fun x => x.statusIsErr)).getD true = true := by
    rw [hm]
    simpa using he
  induction l1 with
  | nil => simp [scanLoop, hp, ht, hskip]
  | cons a l1 ih =>
    simp only [List.cons_append, scanLoop]
    cases hpa : env.parseSignature a with
    | none => rfl
    | some sg2 =>
      dsimp only
      cases hta : env.getTransaction sg2 with
      | error e => rfl
      | ok tx2 =>
        dsimp only
        by_cases hc : (tx2.meta.map (fun x => x.statusIsErr)).getD true = true
        · rw [if_pos hc, if_pos hc]
          exact ih
        · rw [if_neg hc, if_neg hc]
          by_cases hf : is_vrf_fulfilled_transaction tx2 p = true
          · rw [if_pos hf, if_pos hf]
          · rw [if_neg hf, if_neg hf]
            exact ih

/-- Environment for the failed-status witness: the first signature's
transaction has a failed outer status yet syntactically qualifying
instructions; the scan result equals that of the history without it. -/
def envFailedTx : ScanEnv :=
  ScanEnv.mk (fun s => if s = "bad" then some 0 else some 1)
    (fun sg =>
      if sg = 0 then
        .ok (TransactionRecord.mk (some (TxMeta.mk true))
          [ParsedInstr.mk "vrf" [], ParsedInstr.mk edSigVerifyProgramId
            (List.replicate 32 1)])
      else
        .ok (TransactionRecord.mk (some (TxMeta.mk false)) []))
    (fun _ _ _ => true)

theorem failed_status_tx_skipped_witness :
    envFailedTx.parseSignature "bad" = some 0 ∧
    scanLoop envFailedTx "vrf" [] [] ["bad", "other"] =
      scanLoop envFailedTx "vrf" [] [] ["other"] :=
  ⟨rfl, failed_status_tx_skipped envFailedTx "vrf" [] [] "bad" 0
    (TransactionRecord.mk (some (TxMeta.mk true))
      [ParsedInstr.mk "vrf" [], ParsedInstr.mk edSigVerifyProgramId
        (List.replicate 32 1)])
    (TxMeta.mk true) [] ["other"] rfl rfl rfl rfl⟩

/-- Outcome the scan produces once it has selected a transaction: the
cryptographic check's error, or overall success. -/
def verifyOutcome (env : ScanEnv) (tx : TransactionRecord)
    (seed sig : List Nat) : ScanOutcome :=
  match Verify.verify_randomness_offchain env.ed25519Verify tx seed sig with
  | .error e => .err e
  | .ok _ => .ok

/-- C6: the scan walks the signature list in the history provider's order,
stepping over every earlier non-qualifying entry, and the first qualifying
transaction in that order is the one selected for verification — entries
after it are never consulted. -/
theorem scan_selects_first_qualifying (env : ScanEnv) (p : String)
    (seed sig : List Nat) (l1 l2 : List String) (s : String)
    (tx : TransactionRecord)
    (h1 : ∀ t ∈ l1, skippable env p t)
    (hq : qualifies env p s tx) :
    scanLoop env p seed sig (l1 ++ s :: l2) = verifyOutcome env tx seed sig := by
  obtain ⟨sg, hp, ht, hst, hf⟩ := hq
  revert h1
  induction l1 with
  | nil =>
    intro _
    simp only [List.nil_append, scanLoop]
    rw [hp]
    dsimp only
    rw [ht]
    dsimp only
    rw [if_neg (by simp [hst]), if_pos hf]
    rfl
  | cons a l1 ih =>
    intro h1
    obtain ⟨sg2, tx2, hpa, hta, hcase⟩ := h1 a (List.mem_cons_self a l1)
    have ihl := ih (fun t htl => h1 t (List.mem_cons_of_mem a htl))
    simp only [List.cons_append, scanLoop]
    rw [hpa]
    dsimp only
    rw [hta]
    dsimp only
    rcases hcase with hm | hnf
    · rw [if_pos hm]
      exact ihl
    · by_cases hm : (tx2.meta.map (fun x => x.statusIsErr)).getD true = true
      · rw [if_pos hm]
        exact ihl
      · rw [if_neg hm, if_neg (by simp [hnf])]
        exact ihl

/-- A qualifying fulfillment transaction for the scan-selection witness. -/
def txQualify : TransactionRecord :=
  TransactionRecord.mk (some (TxMeta.mk false))
    [ParsedInstr.mk "vrf" [], ParsedInstr.mk edSigVerifyProgramId
      (List.replicate 32 2)]

/-- Environment for the scan-selection witness: the first signature is a
skippable failed transaction, the second qualifies. -/
def envSelect : ScanEnv :=
  ScanEnv.mk (fun s => if s = "first" then some 0 else some 1)
    (fun sg =>
      if sg = 0 then .ok (TransactionRecord.mk (some (TxMeta.mk true)) [])
      else .ok txQualify)
    (fun _ _ _ => true)

theorem scan_selects_first_qualifying_witness :
    (∀ t ∈ ["first"], skippable envSelect "vrf" t) ∧
    scanLoop envSelect "vrf" [] [] (["first"] ++ "second" :: ["later"]) =
      verifyOutcome envSelect txQualify [] [] := by
  have h1 : ∀ t ∈ ["first"], skippable envSelect "vrf" t := by
    intro t htl
    simp only [List.mem_singleton] at htl
    subst htl
    exact ⟨0, TransactionRecord.mk (some (TxMeta.mk true)) [], rfl, rfl,
      Or.inl rfl⟩
  refine ⟨h1, scan_selects_first_qualifying envSelect "vrf" [] [] ["first"]
    ["later"] "second" txQualify h1 ?_⟩
  exact ⟨1, rfl, rfl, rfl, rfl⟩

/-- C7: against the companion signature-verification instruction located in
the fulfillment transaction, offchain verification succeeds exactly when the
ed25519 check passes on (message = seed bytes, signature = the record's
64-byte value, public key = the instruction's operand); any cryptographic
mismatch yields `RandomnessVerifyError`. -/
theorem verify_succeeds_iff_ed25519
    (ed : List Nat → List Nat → List Nat → Bool)
    (tx : TransactionRecord) (seed sig : List Nat) (instr : ParsedInstr)
    (h : findEdSigVerifyInstr tx = some instr) :
    (Verify.verify_randomness_offchain ed tx seed sig = .ok () ↔
      ed seed sig instr.pubkey = true) ∧
    (ed seed sig instr.pubkey = false →
      Verify.verify_randomness_offchain ed tx seed sig =
        .error (.RandomnessVerifyError "Randomness verification failed")) := by
  unfold Verify.verify_randomness_offchain
  rw [h]
  dsimp only
  by_cases hv : ed seed sig instr.pubkey = true <;> simp [hv]

/-- An ed25519 primitive accepting exactly one (message, signature, key)
triple, for the verification witness; flipping any component — e.g. one bit
of the signature — makes it reject. -/
def edSingle : List Nat → List Nat → List Nat → Bool :=
  fun msg sig pk =>
    msg = List.replicate 32 3 && sig = List.replicate 64 4 &&
      pk = List.replicate 32 2

theorem verify_succeeds_iff_ed25519_witness :
    findEdSigVerifyInstr txQualify =
      some (ParsedInstr.mk edSigVerifyProgramId (List.replicate 32 2)) ∧
    Verify.verify_randomness_offchain edSingle txQualify
      (List.replicate 32 3) (List.replicate 64 4) = .ok () ∧
    Verify.verify_randomness_offchain edSingle txQualify
      (List.replicate 32 3) (0 :: List.replicate 63 4) =
      .error (.RandomnessVerifyError "Randomness verification failed") := by
  have h : findEdSigVerifyInstr txQualify =
      some (ParsedInstr.mk edSigVerifyProgramId (List.replicate 32 2)) := by
    decide
  refine ⟨h, ?_, ?_⟩
  · exact (verify_succeeds_iff_ed25519 edSingle txQualify
      (List.replicate 32 3) (List.replicate 64 4)
      (ParsedInstr.mk edSigVerifyProgramId (List.replicate 32 2)) h).1.mpr
      (by decide)
  · exact (verify_succeeds_iff_ed25519 edSingle txQualify
      (List.replicate 32 3) (0 :: List.replicate 63 4)
      (ParsedInstr.mk edSigVerifyProgramId (List.replicate 32 2)) h).2
      (by decide)

/-- C8: the decoder is total — it is a plain function to a result value —
and on malformed input it returns `DecodeError` rather than panicking: a
slice shorter than the 106-byte layout, a slice with a mismatched
discriminator, and a slice with an out-of-range option tag all decode to
`DecodeError`. -/
theorem decode_from_bytes_malformed (short bad badTag : List Nat) (tagv : Nat)
    (hs : short.length < 106)
    (hl : 106 ≤ bad.length) (hd : bad.take 8 ≠ randomnessDiscriminator)
    (htl : 106 ≤ badTag.length)
    (htd : badTag.take 8 = randomnessDiscriminator)
    (htv : badTag.getD 40 0 = tagv + 2) :
    (∃ msg, Randomness.decode_from_bytes short = .error (.DecodeError msg)) ∧
    (∃ msg, Randomness.decode_from_bytes bad = .error (.DecodeError msg)) ∧
    (∃ msg, Randomness.decode_from_bytes badTag =
      .error (.DecodeError msg)) := by
  refine ⟨⟨"account data too short", ?_⟩,
    ⟨"unexpected account discriminator", ?_⟩, ⟨"unexpected tag byte", ?_⟩⟩
  · simp [Randomness.decode_from_bytes, hs]
  · have hnl : ¬ bad.length < 106 := by omega
    simp [Randomness.decode_from_bytes, hnl, hd]
  · have hnl : ¬ badTag.length < 106 := by omega
    unfold Randomness.decode_from_bytes
    rw [if_neg hnl, if_neg (by simp [htd])]
    dsimp only
    rw [htv]
    rfl

/-- A 106-byte slice with a good discriminator but tag byte 2. -/
def badTagBytes : List Nat :=
  randomnessDiscriminator ++ List.replicate 32 0 ++ [2] ++
    List.replicate 64 0 ++ [0]

theorem decode_from_bytes_malformed_witness :
    ([] : List Nat).length < 106 ∧
    (∃ msg, Randomness.decode_from_bytes [] = .error (.DecodeError msg)) ∧
    (∃ msg, Randomness.decode_from_bytes (List.replicate 106 0) =
      .error (.DecodeError msg)) ∧
    (∃ msg, Randomness.decode_from_bytes badTagBytes =
      .error (.DecodeError msg)) := by
  have h := decode_from_bytes_malformed [] (List.replicate 106 0) badTagBytes
    0 (by decide) (by decide) (by decide) (by decide) (by decide) (by decide)
  exact ⟨by decide, h.1, h.2.1, h.2.2⟩

/-- The scan never panics when every signature string parses. -/
theorem scanLoop_no_panic (env : ScanEnv) (p : String) (seed sig : List Nat)
    (l : List String) (hw : ∀ s ∈ l, (env.parseSignature s).isSome) :
    ∀ msg, scanLoop env p seed sig l ≠ .panic msg := by
  induction l with
  | nil => intro msg h; simp [scanLoop] at h
  | cons a l ih =>
    intro msg
    obtain ⟨sg, hsg⟩ := Option.isSome_iff_exists.mp
      (hw a (List.mem_cons_self a l))
    have ihl := ih (fun s hs => hw s (List.mem_cons_of_mem a hs)) msg
    simp only [scanLoop]
    rw [hsg]
    dsimp only
    cases hta : env.getTransaction sg with
    | error e => simp
    | ok tx =>
      dsimp only
      by_cases hc : (tx.meta.map (fun x => x.statusIsErr)).getD true = true
      · rw [if_pos hc]
        exact ihl
      · rw [if_neg hc]
        by_cases hf : is_vrf_fulfilled_transaction tx p = true
        · rw [if_pos hf]
          cases Verify.verify_randomness_offchain env.ed25519Verify tx seed
              sig <;> simp
        · rw [if_neg hf]
          exact ihl

/-- Environment whose signature strings never parse, exhibiting the
`unwrap` panic. -/
def envMalformed : ScanEnv :=
  ScanEnv.mk (fun _ => none)
    (fun _ => .error (.SolanaClientError "unreachable"))
    (fun _ _ _ => false)

/-- C10: the scan parses each signature string with
`Signature::from_str(...).unwrap()`, so it is panic-free only under the
precondition that every signature string is well-formed; on an input whose
first signature string is malformed it panics instead of returning an
error. -/
theorem signature_parse_unwrap_panics :
    (∀ (env : ScanEnv) (p : String) (seed sig : List Nat) (l : List String),
      (∀ s ∈ l, (env.parseSignature s).isSome) →
      ∀ msg, scanLoop env p seed sig l ≠ .panic msg) ∧
    VrfRequestor.verify_randomness_offchain envMalformed "vrf" []
        (Randomness.mk [] none .Pending) ["not-a-signature"] =
      .panic "called Result::unwrap on an Err value" :=
  ⟨scanLoop_no_panic, rfl⟩

theorem signature_parse_unwrap_panics_witness :
    scanLoop envPending "vrf" [] [] ["sig1"] ≠
      .panic "called Result::unwrap on an Err value" :=
  signature_parse_unwrap_panics.1 envPending "vrf" [] [] ["sig1"]
    (fun _ _ => rfl) "called Result::unwrap on an Err value"

end OraoVrf
